import Mathlib

set_option autoImplicit false

/-!
Shallow embedding of the click-enrichment pipeline of `write-clicks-to-supabase`
(the `syncClickToSupabase` Cloud Function): the Firestore `clicks` trigger that
enriches a click with link/product data and upserts a flattened row into the
Supabase `link_clicks` table.

Modelling conventions:
* A JavaScript field that may be `undefined`/`null` is an `Option`; `none`
  stands for an absent field (and for the SQL `NULL` the sink column receives).
* JavaScript `a || b` selects by truthiness: `undefined`, `null`, `""` and `0`
  are falsy.  The helpers `strTruthy`, `jsOrS`, `jsOrD`, `orNull` capture this
  for string-valued fields; for the numeric `x || 0` patterns the code only
  ever falls back to `0`, which coincides with `Option.getD 0`.
* Firestore `Timestamp` values are modelled by the ISO string that
  `toDate().toISOString()` renders them to; a `Timestamp` object is always
  truthy, so `clickData.timestamp ? … : now` is `Option.getD now`.
* `new Date().toISOString()` (wall-clock time) is an explicit parameter `now`.
* The `state` field of the geo payload can be an array, `null`/a non-array
  value, or absent; only `Array.isArray` distinguishes these in the code, so it
  is modelled by the three-constructor type `StateField`.
* Fallible externals (the Firestore link query, the Firestore product get, the
  Supabase upsert) are a record of `Except`/error-returning functions
  (`Effects`), so that the catch/log structure of the code can be embedded;
  `dbEffects` instantiates them with pure, never-failing lookups over an
  explicit `FirestoreDB`.
* Log calls are modelled as `LogEntry` values recording the level and the
  click identifier argument that the code passes to the logger.
-/

/-- Truthiness of an optional JS string: absent and `""` are falsy. -/
def strTruthy : Option String → Bool
  | some s => !(s == "")
  | none => false

/-- JS `a || b` on optional strings, result kept optional. -/
def jsOrS (a b : Option String) : Option String :=
  if strTruthy a then a else b

/-- JS `a || d` where `d` is a non-empty string literal default. -/
def jsOrD (a : Option String) (d : String) : String :=
  match a with
  | some s => if s == "" then d else s
  | none => d

/-- JS `a || null`: keep the value when truthy, otherwise `null`. -/
def orNull (a : Option String) : Option String :=
  if strTruthy a then a else none

/-- Sub-record `location` of the geo payload (interface `GeoLocation`). -/
structure GeoLocation where
  accuracyRadius : Option ℚ := none
  latitude : Option ℚ := none
  longitude : Option ℚ := none
  timeZone : Option String := none
deriving DecidableEq

/-- One element of the `state` array of the geo payload. -/
structure StateEntry where
  isoCode : String
  name : String
deriving DecidableEq

/-- Shape of the `state` field: absent, present-but-not-an-array (this also
covers the `null` of the TypeScript type), or an array of entries.  The code
only ever inspects it through `Array.isArray` and `state[0]?.…`. -/
inductive StateField where
  | undef : StateField
  | nonArray : StateField
  | arr : List StateEntry → StateField
deriving DecidableEq

/-- Geo payload of a click (interface `GeoIpData`), carrying both the
lowercase and the camelCase naming families. -/
structure GeoIpData where
  city : Option String := none
  country : Option String := none
  location : Option GeoLocation := none
  maxmindQueriesRemaining : Option ℚ := none
  postal : Option String := none
  region : Option String := none
  source : Option String := none
  cityName : Option String := none
  countryName : Option String := none
  postalCode : Option String := none
  state : StateField := .undef
deriving DecidableEq

/-- Project sub-record on a click (interface `ClickProjectDetails`). -/
structure ClickProjectDetails where
  projectId : Option String := none
  projectName : Option String := none
deriving DecidableEq

/-- A document of the Firestore `clicks` collection (interface `ClickData`). -/
structure ClickData where
  deviceType : Option String := none
  geoipData : Option GeoIpData := none
  ipAddress : Option String := none
  linkActionType : Option String := none
  linkSiteName : Option String := none
  linkTags : Option (List String) := none
  name : Option String := none
  pagetype : Option String := none
  productId : Option String := none
  projectDetails : Option ClickProjectDetails := none
  projectId : Option String := none
  qrCodeUrl : Option String := none
  referrer : Option String := none
  shortId : Option String := none
  shortLink : Option String := none
  siteplainname : Option String := none
  timestamp : Option String := none
  campaignId : Option String := none
  campaign_name : Option String := none
  influencerId : Option String := none
  linkType : Option String := none
  userAgent : Option String := none
  sourceType : Option String := none
  qrIdentifier : Option String := none
  qrCodeId : Option String := none
deriving DecidableEq

/-- The `created` sub-record of a link document. -/
structure LinkCreated where
  timestamp : Option String := none
  userId : Option String := none
deriving DecidableEq

/-- A document of the Firestore `links` collection (interface `LinkData`),
with the `firestoreDocId` that `getLinkAndProductData` adds on enrichment. -/
structure LinkData where
  docId : Option String := none
  urlShortCode : Option String := none
  name : Option String := none
  description : Option String := none
  linkTags : Option (List String) := none
  linkValue : Option ℚ := none
  linkactiveflag : Option Bool := none
  pageType : Option String := none
  longLink : Option String := none
  shortLink : Option String := none
  created : Option LinkCreated := none
  siteRetailer : Option String := none
  siteplainname : Option String := none
  qrCode : Option String := none
  linkqrcodeimgurl : Option String := none
  utmParameters : Option (List (String × String)) := none
  productId : Option String := none
  projectDetails : Option ClickProjectDetails := none
  firestoreDocId : Option String := none
deriving DecidableEq

/-- A document of the Firestore `products` collection (interface `ProductData`). -/
structure ProductData where
  docId : Option String := none
  name : Option String := none
  productPrice : Option ℚ := none
  brand : Option String := none
  category : Option String := none
  upc : Option String := none
deriving DecidableEq

/-- A stored link document together with its Firestore document id. -/
structure LinkDoc where
  id : String
  data : LinkData
deriving DecidableEq

/-- A stored product document together with its Firestore document id. -/
structure ProductDoc where
  id : String
  data : ProductData
deriving DecidableEq

/-- The two Firestore collections the enrichment reads. -/
structure FirestoreDB where
  links : List LinkDoc := []
  products : List ProductDoc := []
deriving DecidableEq

/-- The `links` query: `where("urlShortCode", "==", shortId).limit(1)` and then
`docs[0]` — the first stored document whose `urlShortCode` equals the value. -/
def lookupLink (db : FirestoreDB) (shortId : String) : Option LinkDoc :=
  (db.links.filter (fun d => d.data.urlShortCode == some shortId)).head?

/-- The `if (!product.docId) product.docId = productSnapshot.id;` fixup applied
after a successful product get. -/
def fixDocId (doc : ProductDoc) : ProductData :=
  if strTruthy doc.data.docId then doc.data else { doc.data with docId := some doc.id }

/-- Result type of `getLinkAndProductData`. -/
structure EnrichedData where
  link : Option LinkData := none
  product : Option ProductData := none
  productPrice : ℚ := 0
  linkValue : ℚ := 0
  linkUtmParameters : Option (List (String × String)) := none
deriving DecidableEq

/-- Severity of a logger call. -/
inductive LogLevel where
  | log : LogLevel
  | warn : LogLevel
  | error : LogLevel
deriving DecidableEq

/-- A logger call, recording its severity, its message, and the click
identifier the code passes along as context. -/
structure LogEntry where
  level : LogLevel
  message : String
  clickId : String
deriving DecidableEq

/-- Coalesced name: `link?.name || clickData.name || "Untitled"`. -/
def finalName (link : Option LinkData) (clickData : ClickData) : String :=
  jsOrD (jsOrS (link.bind (fun l => l.name)) clickData.name) "Untitled"

/-- Coalesced project id:
`link?.projectDetails?.projectId || clickData.projectId || clickData.projectDetails?.projectId`. -/
def finalProjectId (link : Option LinkData) (clickData : ClickData) : Option String :=
  jsOrS ((link.bind (fun l => l.projectDetails)).bind (fun p => p.projectId))
    (jsOrS clickData.projectId
      ((clickData.projectDetails).bind (fun p => p.projectId)))

/-- Coalesced project name:
`link?.projectDetails?.projectName || clickData.projectDetails?.projectName`. -/
def finalProjectName (link : Option LinkData) (clickData : ClickData) : Option String :=
  jsOrS ((link.bind (fun l => l.projectDetails)).bind (fun p => p.projectName))
    ((clickData.projectDetails).bind (fun p => p.projectName))

/-- Coalesced link type:
`link?.pageType || clickData.linkType || clickData.pagetype || "Unknown"`. -/
def finalLinkType (link : Option LinkData) (clickData : ClickData) : String :=
  jsOrD (jsOrS (link.bind (fun l => l.pageType))
    (jsOrS clickData.linkType clickData.pagetype)) "Unknown"

/-- Campaign name from the link's UTM parameters:
`linkUtmParameters?.campaign || linkUtmParameters?.utm_campaign`. -/
def campaignNameFromLinkUtm (utm : Option (List (String × String))) : Option String :=
  jsOrS (utm.bind (fun l => l.lookup "campaign")) (utm.bind (fun l => l.lookup "utm_campaign"))

/-- Coalesced campaign name: the click's own `campaign_name` first, then the
link UTM campaign. -/
def finalCampaignName (clickData : ClickData)
    (utm : Option (List (String × String))) : Option String :=
  jsOrS clickData.campaign_name (campaignNameFromLinkUtm utm)

/-- The `link_tags` string: the link's tag array joined with `","` when it is
an array, else the click's tag array joined, else `null`.  (A present tag
array is an object, hence truthy even when empty.) -/
def linkTagsString (link : Option LinkData) (clickData : ClickData) : Option String :=
  match link.bind (fun l => l.linkTags) with
  | some tags => some (String.intercalate "," tags)
  | none =>
    match clickData.linkTags with
    | some tags => some (String.intercalate "," tags)
    | none => none

/-- `Array.isArray(geoipData?.state) && geoipData.state[0]?.isoCode || null`. -/
def stateIsoCode (geo : Option GeoIpData) : Option String :=
  match geo with
  | none => none
  | some g =>
    match g.state with
    | .arr (e :: _) => if e.isoCode == "" then none else some e.isoCode
    | _ => none

/-- `Array.isArray(geoipData?.state) && geoipData.state[0]?.name ||
geoipData?.region`: a truthy first-element name wins, anything falsy on the
left falls through to the flat `region`. -/
def stateName (geo : Option GeoIpData) : Option String :=
  match geo with
  | none => none
  | some g =>
    match g.state with
    | .arr (e :: _) => if e.name == "" then g.region else some e.name
    | _ => g.region

/-- The flattened row upserted into the Supabase `link_clicks` table.  Every
column except the `firestore_id` key is nullable; a field the code always
sets carries `some`. -/
structure SupabaseRecord where
  firestore_id : String
  short_id : Option String
  timestamp : Option String
  last_updated : Option String
  device_type : Option String
  user_agent : Option String
  ip_address : Option String
  referrer : Option String
  influencer_id : Option String
  source_type : Option String
  qr_identifier : Option String
  qr_code_id : Option String
  city_name : Option String
  country_name : Option String
  latitude : Option ℚ
  longitude : Option ℚ
  time_zone : Option String
  accuracy_radius : Option ℚ
  maxmind_queries_remaining : Option ℚ
  postal_code : Option String
  state_iso_code : Option String
  state_name : Option String
  name : Option String
  short_link : Option String
  link_long_url : Option String
  link_type : Option String
  page_type : Option String
  link_action_type : Option String
  link_site_name : Option String
  site_plain_name : Option String
  link_tags : Option String
  qr_code_url : Option String
  link_created_at : Option String
  link_created_by_user_id : Option String
  link_active_flag : Option Bool
  link_firestore_doc_id : Option String
  project_id : Option String
  project_name : Option String
  campaign_id : Option String
  campaign_name : Option String
  campaign_name_from_link : Option String
  utm_parameters : Option (List (String × String))
  product_id : Option String
  product_name : Option String
  product_brand : Option String
  product_category : Option String
  product_upc : Option String
  retailer_name : Option String
  product_price : Option ℚ
  link_value : Option ℚ
  etl_processed_at : Option String
deriving DecidableEq

/-- Embedding of `prepareSupabaseData`: flattens the click and the enrichment
result into one sink row.  `now` stands for `new Date().toISOString()`. -/
def prepareSupabaseData (clickData : ClickData) (enrichedData : EnrichedData)
    (firestoreClickId : String) (now : String) : SupabaseRecord :=
  let link := enrichedData.link
  let product := enrichedData.product
  let linkUtmParameters := enrichedData.linkUtmParameters
  { firestore_id := firestoreClickId
    short_id := clickData.shortId
    timestamp := some (clickData.timestamp.getD now)
    last_updated := some now
    device_type := clickData.deviceType
    user_agent := clickData.userAgent
    ip_address := clickData.ipAddress
    referrer := clickData.referrer
    influencer_id := clickData.influencerId
    source_type := some (jsOrD clickData.sourceType "link")
    qr_identifier := orNull clickData.qrIdentifier
    qr_code_id := orNull clickData.qrCodeId
    city_name := jsOrS (clickData.geoipData.bind (fun g => g.cityName))
      (clickData.geoipData.bind (fun g => g.city))
    country_name := jsOrS (clickData.geoipData.bind (fun g => g.countryName))
      (clickData.geoipData.bind (fun g => g.country))
    latitude := (clickData.geoipData.bind (fun g => g.location)).bind (fun l => l.latitude)
    longitude := (clickData.geoipData.bind (fun g => g.location)).bind (fun l => l.longitude)
    time_zone := (clickData.geoipData.bind (fun g => g.location)).bind (fun l => l.timeZone)
    accuracy_radius :=
      (clickData.geoipData.bind (fun g => g.location)).bind (fun l => l.accuracyRadius)
    maxmind_queries_remaining := clickData.geoipData.bind (fun g => g.maxmindQueriesRemaining)
    postal_code := jsOrS (clickData.geoipData.bind (fun g => g.postalCode))
      (clickData.geoipData.bind (fun g => g.postal))
    state_iso_code := stateIsoCode clickData.geoipData
    state_name := stateName clickData.geoipData
    name := some (finalName link clickData)
    short_link := jsOrS (link.bind (fun l => l.shortLink)) clickData.shortLink
    link_long_url := link.bind (fun l => l.longLink)
    link_type := some (finalLinkType link clickData)
    page_type := some (finalLinkType link clickData)
    link_action_type := some (finalLinkType link clickData)
    link_site_name := jsOrS (link.bind (fun l => l.siteplainname))
      (jsOrS clickData.linkSiteName clickData.siteplainname)
    site_plain_name := jsOrS (link.bind (fun l => l.siteplainname))
      (jsOrS clickData.siteplainname clickData.linkSiteName)
    link_tags := linkTagsString link clickData
    qr_code_url := jsOrS (link.bind (fun l => l.qrCode))
      (jsOrS (link.bind (fun l => l.linkqrcodeimgurl)) clickData.qrCodeUrl)
    link_created_at := (link.bind (fun l => l.created)).bind (fun c => c.timestamp)
    link_created_by_user_id := (link.bind (fun l => l.created)).bind (fun c => c.userId)
    link_active_flag := link.bind (fun l => l.linkactiveflag)
    link_firestore_doc_id := link.bind (fun l => l.firestoreDocId)
    project_id := finalProjectId link clickData
    project_name := finalProjectName link clickData
    campaign_id := clickData.campaignId
    campaign_name := finalCampaignName clickData linkUtmParameters
    campaign_name_from_link := campaignNameFromLinkUtm linkUtmParameters
    utm_parameters := linkUtmParameters
    product_id := jsOrS (product.bind (fun p => p.docId))
      (jsOrS (link.bind (fun l => l.productId)) clickData.productId)
    product_name := product.bind (fun p => p.name)
    product_brand := product.bind (fun p => p.brand)
    product_category := product.bind (fun p => p.category)
    product_upc := product.bind (fun p => p.upc)
    retailer_name := link.bind (fun l => l.siteRetailer)
    product_price := some enrichedData.productPrice
    link_value := some enrichedData.linkValue
    etl_processed_at := none }

/-- Fallible externals of one invocation: the link query and the product get
may throw (`Except.error`), and the Supabase upsert may report an `error`
(`some msg`) instead of succeeding (`none`). -/
structure Effects where
  linkQuery : String → Except String (Option LinkDoc)
  productGet : String → Except String (Option ProductDoc)
  upsertResult : SupabaseRecord → Option String

/-- Pure, never-failing effects backed by an explicit Firestore database and
an always-successful sink. -/
def dbEffects (db : FirestoreDB) : Effects where
  linkQuery := fun s => .ok (lookupLink db s)
  productGet := fun pid => .ok (db.products.find? (fun d => d.id == pid))
  upsertResult := fun _ => none

/-- Embedding of `getLinkAndProductData`, returning the enriched data together
with the log entries it emits.  Structure mirrors the source: a falsy
`shortId` short-circuits with the defaults; exceptions of the two Firestore
reads are caught in place, logged with the click id, and the values assigned
so far are returned (a product-get failure thus keeps `productPrice = 0`). -/
def getLinkAndProductDataFx (fx : Effects) (clickData : ClickData)
    (firestoreClickId : String) : EnrichedData × List LogEntry :=
  match clickData.shortId with
  | none =>
    ({}, [⟨.warn, "Click data is missing shortId, cannot enrich link/product info.", firestoreClickId⟩])
  | some s =>
    if s == "" then
      ({}, [⟨.warn, "Click data is missing shortId, cannot enrich link/product info.", firestoreClickId⟩])
    else
      match fx.linkQuery s with
      | .error _ =>
        ({}, [⟨.error, "Error fetching link/product data", firestoreClickId⟩])
      | .ok none =>
        ({}, [⟨.warn, "Link with shortId (urlShortCode) not found.", firestoreClickId⟩])
      | .ok (some linkDocSnapshot) =>
        let link : LinkData :=
          { linkDocSnapshot.data with firestoreDocId := some linkDocSnapshot.id }
        let linkValue : ℚ := link.linkValue.getD 0
        let linkUtmParameters := link.utmParameters
        match link.productId with
        | some pid =>
          if pid == "" then
            ({ link := some link, product := none, productPrice := linkValue,
               linkValue := linkValue, linkUtmParameters := linkUtmParameters }, [])
          else
            match fx.productGet pid with
            | .error _ =>
              ({ link := some link, product := none, productPrice := 0,
                 linkValue := linkValue, linkUtmParameters := linkUtmParameters },
               [⟨.error, "Error fetching link/product data", firestoreClickId⟩])
            | .ok none =>
              ({ link := some link, product := none, productPrice := linkValue,
                 linkValue := linkValue, linkUtmParameters := linkUtmParameters },
               [⟨.warn, "Product not found for link.", firestoreClickId⟩])
            | .ok (some productSnapshot) =>
              let product := fixDocId productSnapshot
              ({ link := some link, product := some product,
                 productPrice := product.productPrice.getD 0,
                 linkValue := linkValue, linkUtmParameters := linkUtmParameters }, [])
        | none =>
          ({ link := some link, product := none, productPrice := linkValue,
             linkValue := linkValue, linkUtmParameters := linkUtmParameters }, [])


/-- The sink: the rows of the Supabase `link_clicks` table. -/
abbrev Sink : Type := List SupabaseRecord

/-- Upsert with `onConflict: "firestore_id"`: when a row with the same key
exists it is overwritten in place (all columns, last-write-wins), otherwise
the row is inserted. -/
def upsertRow (sink : Sink) (r : SupabaseRecord) : Sink :=
  if sink.any (fun x => x.firestore_id == r.firestore_id) then
    sink.map (fun x => if x.firestore_id == r.firestore_id then r else x)
  else
    sink ++ [r]

/-- What one trigger invocation returns to its caller: the sink state it
leaves behind and the log it emitted.  The function itself always returns
normally (`null` in the source), so no error component exists here. -/
structure SyncResult where
  sink : Sink
  logs : List LogEntry
deriving DecidableEq

/-- The `try` block of `syncClickToSupabase` (enrich, prepare, upsert): the
one part of the trigger body that can throw.  On a sink error the row is not
written and the upsert error log precedes the rethrow. -/
def syncTryBlock (fx : Effects) (sink : Sink) (clickData : ClickData)
    (firestoreClickId now : String) : Except (List LogEntry) (Sink × List LogEntry) :=
  let enriched := getLinkAndProductDataFx fx clickData firestoreClickId
  let supabaseData := prepareSupabaseData clickData enriched.1 firestoreClickId now
  let prepLogs := enriched.2 ++ [⟨.log, "Prepared Supabase data:", firestoreClickId⟩]
  match fx.upsertResult supabaseData with
  | some _ =>
    .error (prepLogs ++ [⟨.error, "Supabase upsert error for click ID:", firestoreClickId⟩])
  | none =>
    .ok (upsertRow sink supabaseData,
      prepLogs ++ [⟨.log, "Data upserted in Supabase for click ID:", firestoreClickId⟩])

/-- Embedding of the `syncClickToSupabase` trigger body.  A missing or
deleted `after` snapshot short-circuits without touching the sink; otherwise
the `try` block runs and any exception escaping it is caught, logged with the
click id, and swallowed (the sink keeps its prior state). -/
def syncClickToSupabase (fx : Effects) (sink : Sink) (firestoreClickId : String)
    (after : Option ClickData) (now : String) : SyncResult :=
  match after with
  | none =>
    ⟨sink, [⟨.log, "Click document was deleted or does not exist, skipping.", firestoreClickId⟩]⟩
  | some clickData =>
    let processing : LogEntry := ⟨.log, "Processing click data for Firestore ID:", firestoreClickId⟩
    match syncTryBlock fx sink clickData firestoreClickId now with
    | .ok (newSink, logs) => ⟨newSink, processing :: logs⟩
    | .error logs =>
      ⟨sink, processing :: logs ++ [⟨.error, "Error in syncClickToSupabase for click ID:", firestoreClickId⟩]⟩

/-- The enrichment function as a whole: enrich one click and flatten it into
the sink row that would be upserted. -/
def enrichClick (fx : Effects) (clickData : ClickData)
    (firestoreClickId now : String) : SupabaseRecord :=
  prepareSupabaseData clickData (getLinkAndProductDataFx fx clickData firestoreClickId).1
    firestoreClickId now

/-- Whether the log of a result contains an error-level entry carrying the
given click identifier as context. -/
def hasErrorLog (res : SyncResult) (id : String) : Bool :=
  res.logs.any (fun e => e.level == .error && e.clickId == id)

/-- Example link: directly valued (`linkValue` 42, no `productId`). -/
def exampleLinkNoProduct : LinkDoc :=
  ⟨"L1", { urlShortCode := some "abc123", linkValue := some 42, name := some "X" }⟩

/-- Example link whose `productId` references no stored product. -/
def exampleLinkDangling : LinkDoc :=
  ⟨"L2", { urlShortCode := some "zzz9", linkValue := some 7, productId := some "p-missing" }⟩

/-- Example store holding the two links above and no products. -/
def exampleDb : FirestoreDB :=
  { links := [exampleLinkNoProduct, exampleLinkDangling], products := [] }

/-- Example click on the directly-valued link. -/
def clickAbc : ClickData := { shortId := some "abc123" }

/-- Example click on the link with the dangling product reference. -/
def clickZzz : ClickData := { shortId := some "zzz9" }

/-- Effects in which every external call fails. -/
def failingFx : Effects where
  linkQuery := fun _ => .error "network down"
  productGet := fun _ => .error "network down"
  upsertResult := fun _ => some "connection refused"

/-- Effects over `exampleDb` in which only the sink upsert fails. -/
def upsertFailFx : Effects where
  linkQuery := fun s => .ok (lookupLink exampleDb s)
  productGet := fun pid => .ok (exampleDb.products.find? (fun d => d.id == pid))
  upsertResult := fun _ => some "unique constraint violation"

/-- Effects over `exampleDb` in which only the product get fails. -/
def productFailFx : Effects where
  linkQuery := fun s => .ok (lookupLink exampleDb s)
  productGet := fun _ => .error "network down"
  upsertResult := fun _ => none

/-- Every row of an upserted sink whose key matches the upserted row's key is
that row itself. -/
theorem upsertRow_mem_key (s : Sink) (r x : SupabaseRecord) (hx : x ∈ upsertRow s r)
    (hkey : (x.firestore_id == r.firestore_id) = true) : x = r := by
  unfold upsertRow at hx
  split at hx
  · rcases List.mem_map.mp hx with ⟨y, hy, hfy⟩
    split at hfy
    · exact hfy.symm
    · next hk =>
      rw [← hfy] at hkey
      exact absurd hkey hk
  · next hany =>
    rcases List.mem_append.mp hx with hmem | hmem
    · exfalso
      simp only [Bool.not_eq_true] at hany
      exact absurd hkey (by simpa using List.any_eq_false.mp hany x hmem)
    · simpa using hmem

/-- An upserted sink always contains a row matching the upserted key. -/
theorem upsertRow_any (s : Sink) (r : SupabaseRecord) :
    (upsertRow s r).any (fun y => y.firestore_id == r.firestore_id) = true := by
  unfold upsertRow
  split
  · next h =>
    rcases List.any_eq_true.mp h with ⟨y, hy, hp⟩
    exact List.any_eq_true.mpr
      ⟨r, List.mem_map.mpr ⟨y, hy, by rw [if_pos hp]⟩, by simp⟩
  · simp

/-- Upserting the same row twice is the same as upserting it once. -/
theorem upsertRow_idem (s : Sink) (r : SupabaseRecord) :
    upsertRow (upsertRow s r) r = upsertRow s r := by
  have hany := upsertRow_any s r
  have hmap : (upsertRow s r).map
      (fun x => if x.firestore_id == r.firestore_id then r else x) = upsertRow s r := by
    have hid : ∀ x ∈ upsertRow s r,
        (if x.firestore_id == r.firestore_id then r else x) = x := by
      intro x hx
      by_cases hk : (x.firestore_id == r.firestore_id) = true
      · rw [if_pos hk, upsertRow_mem_key s r x hx hk]
      · rw [if_neg hk]
    calc (upsertRow s r).map (fun x => if x.firestore_id == r.firestore_id then r else x)
        = (upsertRow s r).map id := List.map_congr_left hid
      _ = upsertRow s r := List.map_id _
  show (if (upsertRow s r).any (fun x => x.firestore_id == r.firestore_id) then
      (upsertRow s r).map (fun x => if x.firestore_id == r.firestore_id then r else x)
    else upsertRow s r ++ [r]) = upsertRow s r
  rw [if_pos hany, hmap]

/-- After an upsert into a sink holding at most one row with the upserted key,
the rows with that key are exactly the upserted row. -/
theorem upsertRow_filter (s : Sink) (r : SupabaseRecord) (k : String)
    (hk : r.firestore_id = k)
    (h : (s.filter (fun x => x.firestore_id == k)).length ≤ 1) :
    (upsertRow s r).filter (fun x => x.firestore_id == k) = [r] := by
  subst hk
  unfold upsertRow
  split
  · next hany =>
    rcases List.any_eq_true.mp hany with ⟨y, hy, hp⟩
    rw [List.filter_map]
    have h1 : List.filter ((fun x => x.firestore_id == r.firestore_id) ∘
        (fun x => if x.firestore_id == r.firestore_id then r else x)) s =
        List.filter (fun x => x.firestore_id == r.firestore_id) s := by
      apply List.filter_congr
      intro x _
      simp only [Function.comp_apply]
      by_cases hx : (x.firestore_id == r.firestore_id) = true
      · rw [if_pos hx, hx]
        simp
      · rw [if_neg hx]
    rw [h1]
    have hmem : y ∈ s.filter (fun x => x.firestore_id == r.firestore_id) :=
      List.mem_filter.mpr ⟨hy, hp⟩
    have hlen : (s.filter (fun x => x.firestore_id == r.firestore_id)).length = 1 :=
      le_antisymm h (List.length_pos.mpr (List.ne_nil_of_mem hmem))
    rcases List.length_eq_one.mp hlen with ⟨z, hz⟩
    have hpz : (z.firestore_id == r.firestore_id) = true := by
      have hzmem : z ∈ s.filter (fun x => x.firestore_id == r.firestore_id) := by
        rw [hz]
        exact List.mem_singleton_self z
      exact (List.mem_filter.mp hzmem).2
    rw [hz]
    simp only [List.map_cons, List.map_nil]
    rw [if_pos hpz]
  · next hany =>
    simp only [Bool.not_eq_true] at hany
    rw [List.filter_append]
    have h0 : s.filter (fun x => x.firestore_id == r.firestore_id) = [] := by
      rw [List.filter_eq_nil_iff]
      intro a ha
      simpa using List.any_eq_false.mp hany a ha
    rw [h0]
    simp

/-- When the sink accepts the row, one invocation leaves behind exactly the
upsert of the enriched row into the prior sink. -/
theorem sync_upsert_ok (fx : Effects) (sink : Sink) (fid now : String) (c : ClickData)
    (h : fx.upsertResult (enrichClick fx c fid now) = none) :
    (syncClickToSupabase fx sink fid (some c) now).sink =
      upsertRow sink (enrichClick fx c fid now) := by
  simp only [enrichClick] at h
  simp [syncClickToSupabase, syncTryBlock, h, enrichClick]

/-- A click without `shortId` short-circuits the enrichment: no effect is
consulted and the defaults are returned. -/
theorem enrich_noShortId (fx : Effects) (c : ClickData) (fid : String)
    (h : c.shortId = none) :
    (getLinkAndProductDataFx fx c fid).1 = ({} : EnrichedData) := by
  simp [getLinkAndProductDataFx, h]

/-- C10: in every sink row the three fields `link_type`, `page_type` and
`link_action_type` are equal, all set from the single coalesced value
`link?.pageType || clickData.linkType || clickData.pagetype || "Unknown"`. -/
theorem link_type_fields_agree (c : ClickData) (e : EnrichedData) (fid now : String) :
    (prepareSupabaseData c e fid now).link_type = (prepareSupabaseData c e fid now).page_type ∧
    (prepareSupabaseData c e fid now).link_action_type =
      (prepareSupabaseData c e fid now).link_type ∧
    (prepareSupabaseData c e fid now).link_type = some (finalLinkType e.link c) :=
  ⟨rfl, rfl, rfl⟩

/-- C8: a trigger invocation whose event carries no `after` snapshot (source
record deleted or absent) performs no sink write: the sink is returned
unchanged. -/
theorem deleted_click_no_write (fx : Effects) (sink : Sink) (fid now : String) :
    (syncClickToSupabase fx sink fid none now).sink = sink := rfl

/-- C7: a click without `sourceType` yields `source_type = "link"` in the sink
row, and a click without `qrIdentifier` yields `qr_identifier = null`. -/
theorem source_type_defaults (c : ClickData) (e : EnrichedData) (fid now : String) :
    (c.sourceType = none →
      (prepareSupabaseData c e fid now).source_type = some "link") ∧
    (c.qrIdentifier = none →
      (prepareSupabaseData c e fid now).qr_identifier = none) := by
  constructor
  · intro h
    simp [prepareSupabaseData, jsOrD, h]
  · intro h
    simp [prepareSupabaseData, orNull, strTruthy, h]

/-- Witness for C7: the defaults on a click with neither field. -/
theorem source_type_defaults_witness :
    (prepareSupabaseData {} {} "click-7" "T").source_type = some "link" ∧
    (prepareSupabaseData {} {} "click-7" "T").qr_identifier = none :=
  ⟨(source_type_defaults {} {} "click-7" "T").1 rfl,
   (source_type_defaults {} {} "click-7" "T").2 rfl⟩

/-- C9: coalescing selects by JS truthiness, not by presence: an empty-string
`cityName` loses to `city`, an empty-string `sourceType` falls back to
`"link"`, and all-empty name candidates yield `"Untitled"`. -/
theorem coalescing_by_truthiness (c : ClickData) (g : GeoIpData) (e : EnrichedData)
    (l : LinkData) (fid now : String) :
    (c.geoipData = some g → g.cityName = some "" →
      (prepareSupabaseData c e fid now).city_name = g.city) ∧
    (c.sourceType = some "" →
      (prepareSupabaseData c e fid now).source_type = some "link") ∧
    (e.link = some l → l.name = some "" → c.name = some "" →
      (prepareSupabaseData c e fid now).name = some "Untitled") := by
  refine ⟨fun hg hc => ?_, fun hs => ?_, fun hl hn hcn => ?_⟩
  · simp [prepareSupabaseData, jsOrS, strTruthy, hg, hc]
  · simp [prepareSupabaseData, jsOrD, hs]
  · simp [prepareSupabaseData, finalName, jsOrS, jsOrD, strTruthy, hl, hn, hcn]

/-- Witness for C9: empty-string fields on a concrete click fall through. -/
theorem coalescing_by_truthiness_witness :
    (prepareSupabaseData
        { geoipData := some { cityName := some "", city := some "LA" },
          sourceType := some "", name := some "" }
        { link := some { name := some "" } } "click-9" "T").city_name = some "LA" ∧
    (prepareSupabaseData
        { geoipData := some { cityName := some "", city := some "LA" },
          sourceType := some "", name := some "" }
        { link := some { name := some "" } } "click-9" "T").source_type = some "link" ∧
    (prepareSupabaseData
        { geoipData := some { cityName := some "", city := some "LA" },
          sourceType := some "", name := some "" }
        { link := some { name := some "" } } "click-9" "T").name = some "Untitled" :=
  ⟨(coalescing_by_truthiness _ _ _ { name := some "" } "click-9" "T").1 rfl rfl,
   (coalescing_by_truthiness _ { cityName := some "", city := some "LA" } _
      { name := some "" } "click-9" "T").2.1 rfl,
   (coalescing_by_truthiness _ { cityName := some "", city := some "LA" } _ _
      "click-9" "T").2.2 rfl rfl rfl⟩

/-- Counterexample to C2 as stated: with both pair fields present but the
camelCase one empty (`cityName = ""`, `city = "LA"`), the coalesced output is
the lowercase value `"LA"`, not the camelCase value `""`. -/
theorem geo_camelCase_empty_loses :
    ({ geoipData := some { cityName := some "", city := some "LA" } } : ClickData).geoipData
        = some { cityName := some "", city := some "LA" } ∧
    (prepareSupabaseData { geoipData := some { cityName := some "", city := some "LA" } }
        {} "click-2" "T").city_name = some "LA" ∧
    (prepareSupabaseData { geoipData := some { cityName := some "", city := some "LA" } }
        {} "click-2" "T").city_name ≠ some "" := by
  refine ⟨rfl, rfl, ?_⟩
  decide

/-- C2 amended: for each documented pair (`cityName`/`city`,
`countryName`/`country`, `postalCode`/`postal`) the output equals the
camelCase value when that value is present and non-empty (truthy), and
otherwise equals the lowercase value (`null` when that is also absent). -/
theorem geo_coalescing_precedence (c : ClickData) (g : GeoIpData) (e : EnrichedData)
    (fid now : String) (hg : c.geoipData = some g) :
    (∀ x, g.cityName = some x → x ≠ "" →
      (prepareSupabaseData c e fid now).city_name = some x) ∧
    (strTruthy g.cityName = false →
      (prepareSupabaseData c e fid now).city_name = g.city) ∧
    (∀ x, g.countryName = some x → x ≠ "" →
      (prepareSupabaseData c e fid now).country_name = some x) ∧
    (strTruthy g.countryName = false →
      (prepareSupabaseData c e fid now).country_name = g.country) ∧
    (∀ x, g.postalCode = some x → x ≠ "" →
      (prepareSupabaseData c e fid now).postal_code = some x) ∧
    (strTruthy g.postalCode = false →
      (prepareSupabaseData c e fid now).postal_code = g.postal) := by
  refine ⟨fun x hx hne => ?_, fun hf => ?_, fun x hx hne => ?_, fun hf => ?_,
    fun x hx hne => ?_, fun hf => ?_⟩ <;>
    simp_all [prepareSupabaseData, jsOrS, strTruthy, hg]

/-- Witness for C2 (amended): a non-empty camelCase city wins, an absent
camelCase country falls back to the lowercase value. -/
theorem geo_coalescing_precedence_witness :
    (prepareSupabaseData
        { geoipData := some { cityName := some "NY", city := some "LA", country := some "US" } }
        {} "click-2w" "T").city_name = some "NY" ∧
    (prepareSupabaseData
        { geoipData := some { cityName := some "NY", city := some "LA", country := some "US" } }
        {} "click-2w" "T").country_name = some "US" :=
  ⟨(geo_coalescing_precedence _ _ {} "click-2w" "T" rfl).1 "NY" rfl (by decide),
   (geo_coalescing_precedence _
      { cityName := some "NY", city := some "LA", country := some "US" } {} "click-2w" "T"
      rfl).2.2.2.1 rfl⟩

/-- Counterexample to C3 as stated: `state` is a non-empty array but its first
element's name is the empty string, so the flat `region` value wins:
`state_name` is `"California"`, not the first element's name `""`. -/
theorem state_name_empty_first_loses :
    ({ geoipData := some { state := .arr [⟨"CA", ""⟩], region := some "California" } } :
        ClickData).geoipData
      = some { state := .arr [⟨"CA", ""⟩], region := some "California" } ∧
    (prepareSupabaseData
        { geoipData := some { state := .arr [⟨"CA", ""⟩], region := some "California" } }
        {} "click-3" "T").state_name = some "California" ∧
    (prepareSupabaseData
        { geoipData := some { state := .arr [⟨"CA", ""⟩], region := some "California" } }
        {} "click-3" "T").state_name ≠ some "" := by
  refine ⟨rfl, rfl, ?_⟩
  decide

/-- C3 amended: `state_name` equals the first element's name when `state` is a
non-empty array and that name is non-empty; in every other case (empty first
name, empty array, non-array value, absent field) it equals the flat `region`
value.  A non-array `state` is handled without any failure. -/
theorem state_name_precedence (c : ClickData) (g : GeoIpData) (e : EnrichedData)
    (fid now : String) (hg : c.geoipData = some g) :
    (∀ en rest, g.state = .arr (en :: rest) → en.name ≠ "" →
      (prepareSupabaseData c e fid now).state_name = some en.name) ∧
    (∀ en rest, g.state = .arr (en :: rest) → en.name = "" →
      (prepareSupabaseData c e fid now).state_name = g.region) ∧
    (g.state = .arr [] → (prepareSupabaseData c e fid now).state_name = g.region) ∧
    (g.state = .nonArray → (prepareSupabaseData c e fid now).state_name = g.region) ∧
    (g.state = .undef → (prepareSupabaseData c e fid now).state_name = g.region) := by
  refine ⟨fun en rest hs hne => ?_, fun en rest hs hne => ?_, fun hs => ?_,
    fun hs => ?_, fun hs => ?_⟩ <;>
    simp_all [prepareSupabaseData, stateName, hg]

/-- Witness for C3 (amended): a non-empty first state name wins over the
region, and a non-array `state` falls back to the region. -/
theorem state_name_precedence_witness :
    (prepareSupabaseData
        { geoipData := some { state := .arr [⟨"CA", "California"⟩], region := some "Nevada" } }
        {} "click-3w" "T").state_name = some "California" ∧
    (prepareSupabaseData
        { geoipData := some { state := .nonArray, region := some "Nevada" } }
        {} "click-3w" "T").state_name = some "Nevada" :=
  ⟨(state_name_precedence _ _ {} "click-3w" "T" rfl).1 ⟨"CA", "California"⟩ [] rfl
      (by decide),
   (state_name_precedence _ { state := .nonArray, region := some "Nevada" } {} "click-3w"
      "T" rfl).2.2.2.1 rfl⟩

/-- Counterexample to C1 as stated: for a click with no `shortId` the sink row
does not have every link/product-derived enrichment field null — the numeric
enrichment fields `product_price` and `link_value` are written as `0`, never
as null. -/
theorem noShortId_price_not_null :
    ({} : ClickData).shortId = none ∧
    (enrichClick (dbEffects {}) {} "click-1" "T").product_price = some 0 ∧
    (enrichClick (dbEffects {}) {} "click-1" "T").product_price ≠ none ∧
    (enrichClick (dbEffects {}) {} "click-1" "T").link_value = some 0 := by
  refine ⟨rfl, rfl, ?_, rfl⟩
  decide

/-- C1 amended: for a click with no `shortId`, enrichment short-circuits
before consulting any external effect (so it cannot throw, whatever the
effects do): the enrichment result is the defaults, every nullable
link/product-derived field of the row is null, the numeric `product_price`
and `link_value` are `0` (not null), and the click-derived fields carry the
click's own values. -/
theorem noShortId_minimal_record (fx : Effects) (c : ClickData) (fid now : String)
    (h : c.shortId = none) :
    (getLinkAndProductDataFx fx c fid).1 = ({} : EnrichedData) ∧
    (enrichClick fx c fid now).link_long_url = none ∧
    (enrichClick fx c fid now).link_created_at = none ∧
    (enrichClick fx c fid now).link_created_by_user_id = none ∧
    (enrichClick fx c fid now).link_active_flag = none ∧
    (enrichClick fx c fid now).link_firestore_doc_id = none ∧
    (enrichClick fx c fid now).utm_parameters = none ∧
    (enrichClick fx c fid now).campaign_name_from_link = none ∧
    (enrichClick fx c fid now).product_name = none ∧
    (enrichClick fx c fid now).product_brand = none ∧
    (enrichClick fx c fid now).product_category = none ∧
    (enrichClick fx c fid now).product_upc = none ∧
    (enrichClick fx c fid now).retailer_name = none ∧
    (enrichClick fx c fid now).product_price = some 0 ∧
    (enrichClick fx c fid now).link_value = some 0 ∧
    (enrichClick fx c fid now).firestore_id = fid ∧
    (enrichClick fx c fid now).short_id = none ∧
    (enrichClick fx c fid now).device_type = c.deviceType ∧
    (enrichClick fx c fid now).user_agent = c.userAgent ∧
    (enrichClick fx c fid now).ip_address = c.ipAddress ∧
    (enrichClick fx c fid now).referrer = c.referrer ∧
    (enrichClick fx c fid now).influencer_id = c.influencerId ∧
    (enrichClick fx c fid now).campaign_id = c.campaignId := by
  have he : (getLinkAndProductDataFx fx c fid).1 = ({} : EnrichedData) :=
    enrich_noShortId fx c fid h
  refine ⟨he, ?_⟩
  simp only [enrichClick, he]
  simp [prepareSupabaseData, finalProjectName, campaignNameFromLinkUtm, jsOrS, strTruthy, h]

/-- Witness for C1 (amended): a click with no `shortId`, processed with
effects that fail on every external call, still yields the minimal record. -/
theorem noShortId_minimal_record_witness :
    (getLinkAndProductDataFx failingFx {} "click-1w").1 = ({} : EnrichedData) ∧
    (enrichClick failingFx {} "click-1w" "T").link_long_url = none :=
  ⟨(noShortId_minimal_record failingFx {} "click-1w" "T" rfl).1,
   (noShortId_minimal_record failingFx {} "click-1w" "T" rfl).2.1⟩

/-- C4: when the click's `shortId` resolves to a stored link whose `productId`
is absent, or whose `productId` references no stored product, the sink row's
`product_price` equals the link's `linkValue` (and so does `link_value`). -/
theorem product_fallback_price (db : FirestoreDB) (c : ClickData) (fid now s : String)
    (doc : LinkDoc) (v : ℚ) (h1 : c.shortId = some s) (h2 : s ≠ "")
    (h3 : lookupLink db s = some doc) (h4 : doc.data.linkValue = some v) :
    (doc.data.productId = none →
      (enrichClick (dbEffects db) c fid now).product_price = some v ∧
      (enrichClick (dbEffects db) c fid now).link_value = some v) ∧
    (∀ pid, doc.data.productId = some pid → pid ≠ "" →
      db.products.find? (fun d => d.id == pid) = none →
      (enrichClick (dbEffects db) c fid now).product_price = some v ∧
      (enrichClick (dbEffects db) c fid now).link_value = some v) := by
  constructor
  · intro hp
    simp [enrichClick, getLinkAndProductDataFx, prepareSupabaseData, dbEffects,
      h1, h2, h3, h4, hp]
  · intro pid hp hne hfind
    simp [enrichClick, getLinkAndProductDataFx, prepareSupabaseData, dbEffects,
      h1, h2, h3, h4, hp, hne, hfind]

/-- Witness for C4: over `exampleDb`, the no-`productId` link yields price 42
and the dangling-`productId` link yields price 7, each its `linkValue`. -/
theorem product_fallback_price_witness :
    (enrichClick (dbEffects exampleDb) clickAbc "click-4a" "T").product_price = some 42 ∧
    (enrichClick (dbEffects exampleDb) clickZzz "click-4b" "T").product_price = some 7 :=
  ⟨((product_fallback_price exampleDb clickAbc "click-4a" "T" "abc123"
      exampleLinkNoProduct 42 rfl (by decide) rfl rfl).1 rfl).1,
   ((product_fallback_price exampleDb clickZzz "click-4b" "T" "zzz9"
      exampleLinkDangling 7 rfl (by decide) rfl rfl).2 "p-missing" rfl (by decide) rfl).1⟩

/-- A result whose log contains an error entry carrying the click id has an
error logged with that id. -/
theorem hasErrorLog_of_mem (res : SyncResult) (id msg : String)
    (h : (⟨.error, msg, id⟩ : LogEntry) ∈ res.logs) : hasErrorLog res id = true := by
  unfold hasErrorLog
  exact List.any_eq_true.mpr ⟨_, h, by simp⟩

/-- Every log entry emitted inside `getLinkAndProductData` survives into the
log of the whole trigger invocation, whatever the sink upsert does. -/
theorem sync_logs_keep_enrich_logs (fx : Effects) (sink : Sink) (fid now : String)
    (c : ClickData) (entry : LogEntry)
    (h : entry ∈ (getLinkAndProductDataFx fx c fid).2) :
    entry ∈ (syncClickToSupabase fx sink fid (some c) now).logs := by
  simp only [syncClickToSupabase, syncTryBlock]
  cases fx.upsertResult
      (prepareSupabaseData c (getLinkAndProductDataFx fx c fid).1 fid now) <;>
    simp [h]

/-- C5: an exception in the link lookup, the product lookup, or the sink
upsert is caught and logged at error level with the originating click
identifier, and the trigger still returns a normal `SyncResult` (the
function is total, so nothing propagates to the caller; record preparation
is total in the embedding and sits inside the same catch).  On a sink-upsert
failure the sink is left unchanged. -/
theorem trigger_swallows_exceptions (fx : Effects) (sink : Sink) (fid now : String)
    (c : ClickData) :
    (∀ s m, c.shortId = some s → s ≠ "" → fx.linkQuery s = .error m →
      hasErrorLog (syncClickToSupabase fx sink fid (some c) now) fid = true) ∧
    (∀ s doc pid m, c.shortId = some s → s ≠ "" → fx.linkQuery s = .ok (some doc) →
      doc.data.productId = some pid → pid ≠ "" → fx.productGet pid = .error m →
      hasErrorLog (syncClickToSupabase fx sink fid (some c) now) fid = true) ∧
    (∀ m, fx.upsertResult (enrichClick fx c fid now) = some m →
      hasErrorLog (syncClickToSupabase fx sink fid (some c) now) fid = true ∧
      (syncClickToSupabase fx sink fid (some c) now).sink = sink) := by
  refine ⟨fun s m h1 h2 h3 => ?_, fun s doc pid m h1 h2 h3 h4 h5 h6 => ?_,
    fun m hm => ?_⟩
  · exact hasErrorLog_of_mem _ fid "Error fetching link/product data"
      (sync_logs_keep_enrich_logs fx sink fid now c _
        (by simp [getLinkAndProductDataFx, h1, h2, h3]))
  · exact hasErrorLog_of_mem _ fid "Error fetching link/product data"
      (sync_logs_keep_enrich_logs fx sink fid now c _
        (by simp [getLinkAndProductDataFx, h1, h2, h3, h4, h5, h6]))
  · simp only [enrichClick] at hm
    constructor
    · refine hasErrorLog_of_mem _ fid "Error in syncClickToSupabase for click ID:" ?_
      simp only [syncClickToSupabase, syncTryBlock]
      simp [hm]
    · simp [syncClickToSupabase, syncTryBlock, hm]

/-- Witness for C5: a failing link query, a failing product get, and a failing
sink upsert each leave an error log carrying the click id, and the failed
upsert leaves the sink empty. -/
theorem trigger_swallows_exceptions_witness :
    hasErrorLog (syncClickToSupabase failingFx [] "click-5"
      (some { shortId := some "abc" }) "T") "click-5" = true ∧
    hasErrorLog (syncClickToSupabase productFailFx [] "click-5b"
      (some clickZzz) "T") "click-5b" = true ∧
    hasErrorLog (syncClickToSupabase upsertFailFx [] "click-5c"
      (some clickAbc) "T") "click-5c" = true ∧
    (syncClickToSupabase upsertFailFx [] "click-5c" (some clickAbc) "T").sink = [] :=
  ⟨(trigger_swallows_exceptions failingFx [] "click-5" "T" { shortId := some "abc" }).1
      "abc" "network down" rfl (by decide) rfl,
   (trigger_swallows_exceptions productFailFx [] "click-5b" "T" clickZzz).2.1
      "zzz9" exampleLinkDangling "p-missing" "network down" rfl (by decide) rfl
      rfl (by decide) rfl,
   ((trigger_swallows_exceptions upsertFailFx [] "click-5c" "T" clickAbc).2.2
      "unique constraint violation" rfl).1,
   ((trigger_swallows_exceptions upsertFailFx [] "click-5c" "T" clickAbc).2.2
      "unique constraint violation" rfl).2⟩

/-- C6: processing the same click twice with identical content leaves exactly
one row keyed by the click's own `firestore_id` in the sink, carrying exactly
the field values of a single processing; with equal wall-clock inputs the
sink after the second processing is identical to the sink after the first. -/
theorem upsert_idempotent_processing (fx : Effects) (sink : Sink) (fid now1 now2 : String)
    (c : ClickData)
    (hwf : (sink.filter (fun r => r.firestore_id == fid)).length ≤ 1)
    (hup1 : fx.upsertResult (enrichClick fx c fid now1) = none)
    (hup2 : fx.upsertResult (enrichClick fx c fid now2) = none) :
    ((syncClickToSupabase fx (syncClickToSupabase fx sink fid (some c) now1).sink fid
        (some c) now2).sink.filter (fun r => r.firestore_id == fid))
      = [enrichClick fx c fid now2] ∧
    ((syncClickToSupabase fx sink fid (some c) now2).sink.filter
        (fun r => r.firestore_id == fid)) = [enrichClick fx c fid now2] ∧
    (now1 = now2 →
      (syncClickToSupabase fx (syncClickToSupabase fx sink fid (some c) now1).sink fid
          (some c) now2).sink = (syncClickToSupabase fx sink fid (some c) now2).sink) := by
  have hs1 := sync_upsert_ok fx sink fid now1 c hup1
  have hs2 := sync_upsert_ok fx sink fid now2 c hup2
  have hkey1 : (enrichClick fx c fid now1).firestore_id = fid := rfl
  have hkey2 : (enrichClick fx c fid now2).firestore_id = fid := rfl
  have hf1 : (upsertRow sink (enrichClick fx c fid now1)).filter
      (fun r => r.firestore_id == fid) = [enrichClick fx c fid now1] :=
    upsertRow_filter sink _ fid hkey1 hwf
  refine ⟨?_, ?_, ?_⟩
  · have hs2b := sync_upsert_ok fx (upsertRow sink (enrichClick fx c fid now1)) fid now2 c hup2
    rw [hs1, hs2b]
    apply upsertRow_filter _ _ fid hkey2
    rw [hf1]
    simp
  · rw [hs2]
    exact upsertRow_filter sink _ fid hkey2 hwf
  · intro hn
    subst hn
    have hs2b := sync_upsert_ok fx (upsertRow sink (enrichClick fx c fid now1)) fid now1 c hup1
    rw [hs1, hs2b, upsertRow_idem]

/-- Witness for C6: processing the example click twice over the example store
starting from an empty sink leaves exactly the one enriched row. -/
theorem upsert_idempotent_processing_witness :
    ((syncClickToSupabase (dbEffects exampleDb)
        (syncClickToSupabase (dbEffects exampleDb) [] "click-6" (some clickAbc) "T").sink
        "click-6" (some clickAbc) "T").sink.filter
      (fun r => r.firestore_id == "click-6"))
      = [enrichClick (dbEffects exampleDb) clickAbc "click-6" "T"] :=
  (upsert_idempotent_processing (dbEffects exampleDb) [] "click-6" "T" "T" clickAbc
    (by decide) rfl rfl).1
